import Mathlib

/-!
Verification of the Kubernetes pod monitor (`k8s_monitor.py`) against its
specification. The Python source is shallowly embedded: pure string processing
becomes Lean functions over `String`/`List Char`; Python exceptions
(`IndexError` from list indexing, `ValueError` from `int()`) become
`Except Unit`; the external world (kubectl subprocesses, sockets, HTTP
requests, the wall clock) is abstracted into explicit environment values that
record what each external call would return or raise.
-/

deriving instance DecidableEq for Except

namespace K8sMonitor

/-! ### Python string primitives

The source uses `str.split(sep)` with a one-character separator (keeps empty
fields), `str.split()` with no argument (splits on whitespace runs, drops
empty fields), truthiness of `line.strip()`, and `int(s)`. These are embedded
as structurally recursive functions so every definition evaluates by kernel
reduction. -/

/-- Accumulator-passing splitter: splits a character list at every character
satisfying `p`, keeping empty fields (Python `str.split('<char>')`). -/
def splitKeepAux (p : Char → Bool) : List Char → List Char → List String
  | [], acc => [String.mk acc.reverse]
  | c :: rest, acc =>
      if p c then String.mk acc.reverse :: splitKeepAux p rest []
      else splitKeepAux p rest (c :: acc)

/-- Python `s.split(c)` for a single-character separator: fields between
occurrences of `c`, empty fields kept. -/
def pySplitChar (s : String) (c : Char) : List String :=
  splitKeepAux (fun d => d == c) s.toList []

/-- Python `s.split()` with no argument: split on whitespace runs, dropping
empty fields. -/
def pySplitWs (s : String) : List String :=
  (splitKeepAux (fun d => d.isWhitespace) s.toList []).filter (fun t => !t.isEmpty)

/-- Truthiness of Python `line.strip()`: true iff the line contains a
non-whitespace character. -/
def stripTruthy (line : String) : Bool :=
  line.toList.any (fun c => !c.isWhitespace)

/-- Numeric value of a digit list (most significant first). -/
def digitsVal (l : List Char) : Nat :=
  l.foldl (fun a c => a * 10 + (c.toNat - 48)) 0

/-- Python `int(s)` on a string: strip surrounding whitespace, optional sign,
then a non-empty run of decimal digits; `none` models the `ValueError` raise.
(Digit-group underscores, accepted by Python 3, are not modelled: the kubectl
restart column and the inputs of interest never contain them.) -/
def pyInt (s : String) : Option Int :=
  let core := ((s.toList.dropWhile Char.isWhitespace).reverse.dropWhile Char.isWhitespace).reverse
  match core with
  | '-' :: ds => if ds ≠ [] ∧ ds.all Char.isDigit then some (-(digitsVal ds : Int)) else none
  | '+' :: ds => if ds ≠ [] ∧ ds.all Char.isDigit then some (digitsVal ds : Int) else none
  | ds => if ds ≠ [] ∧ ds.all Char.isDigit then some (digitsVal ds : Int) else none

/-! ### Data model (lines 22-38 of `k8s_monitor.py`) -/

/-- Pod status information (`PodStatus` dataclass). The Python field
`namespace` is a Lean keyword and is rendered `ns`. -/
structure PodStatus where
  name : String
  ready : String
  status : String
  restarts : Int
  age : String
  ns : String := "default"
  deriving DecidableEq, Repr

/-- Service test configuration (`ServiceTest` dataclass). -/
structure ServiceTest where
  name : String
  port : Nat
  service_type : String := "grpc"
  test_endpoint : String := "/"
  deriving DecidableEq, Repr

/-- The static service registry built in `KubernetesMonitor.__init__`
(lines 45-54). -/
def services : List ServiceTest :=
  [ ⟨"frontend", 8080, "http", "/"⟩,
    ⟨"cart", 8883, "grpc", "/"⟩,
    ⟨"checkout", 8884, "grpc", "/"⟩,
    ⟨"email", 8885, "grpc", "/"⟩,
    ⟨"order", 8885, "grpc", "/"⟩,
    ⟨"payment", 8886, "grpc", "/"⟩,
    ⟨"product", 8881, "grpc", "/"⟩,
    ⟨"user", 8882, "grpc", "/"⟩ ]

/-! ### Pod status parser (`get_pod_status`, lines 85-98)

The kubectl invocation itself is external; the embedding takes the captured
stdout string (the `output` variable after a successful
`run_kubectl_command`) and performs the parsing loop. `Except Unit` models
the undeclared `ValueError` escaping from `int(parts[3])`. -/

/-- One iteration of the parsing loop body for a single line: `some pod` when
a record is appended, `none` when the line is skipped, `Except.error` when
`int(parts[3])` raises. -/
def parsePodLine (line : String) : Except Unit (Option PodStatus) :=
  if stripTruthy line then
    let parts := pySplitWs line
    if parts.length ≥ 5 then
      match pyInt (parts.getD 3 "") with
      | some n => .ok (some { name := parts.getD 0 "", ready := parts.getD 1 "",
                              status := parts.getD 2 "", restarts := n,
                              age := parts.getD 4 "" })
      | none => .error ()
    else .ok none
  else .ok none

/-- The parsing loop of `get_pod_status` over the already-captured kubectl
stdout: split on newlines, accumulate records in order. -/
def get_pod_status (output : String) : Except Unit (List PodStatus) :=
  (pySplitChar output '\n').foldlM
    (fun pods line => do
      match ← parsePodLine line with
      | some pod => pure (pods ++ [pod])
      | none => pure pods)
    []

/-! ### Pod health classification (`check_pods_health`, lines 100-150) -/

/-- The per-pod health test of line 115:
`pod.status == "Running" and pod.ready.split('/')[0] == pod.ready.split('/')[1]`.
Python's `and` short-circuits, so the split indexing (and hence the possible
`IndexError` on `parts[1]`, modelled as `Except.error`) only happens when the
status is `"Running"`. `pySplitChar` never returns `[]`, matching Python where
`parts[0]` cannot fail. -/
def podHealthCheck (pod : PodStatus) : Except Unit Bool :=
  if pod.status == "Running" then
    match pySplitChar pod.ready '/' with
    | a :: b :: _ => .ok (a == b)
    | _ => .error ()
  else .ok false

/-- The health-aggregation loop of `check_pods_health`, taking the parsed pod
list (the presentational table building is dropped): an empty list returns
`False` immediately (line 106-107); otherwise `all_healthy` starts `True` and
is cleared by every unhealthy pod, the loop visiting every pod in order. -/
def check_pods_health (pods : List PodStatus) : Except Unit Bool :=
  if pods.isEmpty then .ok false
  else
    pods.foldlM (fun all_healthy pod => do
      let healthy ← podHealthCheck pod
      pure (all_healthy && healthy)) true

/-! ### Connectivity probes (lines 174-232)

The network and subprocess world is abstracted: an environment value states
what each external call (socket connect, HTTP GET, `kubectl port-forward`
spawn) would do, including the wall-clock elapsed time a successful call
would measure. The probe functions are then pure functions of that
environment, and `test_service_connectivity` additionally returns the trace
of external effects it performed, so that resource-handling claims (tunnel
release, ports and timeouts actually used) are statements about the trace. -/

/-- Outcome of the raw `sock.connect_ex` call inside `test_port_connectivity`:
either it returns an error code (0 = success) after `elapsed` seconds, or it
raises `socket.timeout`, or it raises some other exception. -/
inductive SocketResult where
  | connectEx (code : Int) (elapsed : ℚ)
  | timeoutExc
  | otherExc (msg : String)
  deriving DecidableEq, Repr

/-- `test_port_connectivity` (lines 174-191) as a function of the socket
behaviour and the `timeout` argument: classifies open/closed/timeout/other,
reporting the `timeout` value itself (not a measured time) on timeout and 0
on any other exception. -/
def test_port_connectivity (res : SocketResult) (timeout : ℚ) : Bool × String × ℚ :=
  match res with
  | .connectEx code elapsed =>
      if code = 0 then (true, "Port open", elapsed)
      else (false, "Port closed", elapsed)
  | .timeoutExc => (false, "Connection timeout", timeout)
  | .otherExc msg => (false, msg, 0)

/-- Outcome of the `requests.get` call inside `test_http_service`: a response
with a status code after `elapsed` measured seconds, or one of the three
caught exception classes. `timeoutExc` carries the wall time that had elapsed
when the timeout exception fired; the code never reads it (it reports the
configured `timeout` instead), which is exactly the quirk under test. -/
inductive HttpResult where
  | response (status : Nat) (elapsed : ℚ)
  | connectionError
  | timeoutExc (wallElapsed : ℚ)
  | otherExc (msg : String)
  deriving DecidableEq, Repr

/-- `test_http_service` (lines 193-209) as a function of the HTTP behaviour
and the `timeout` argument: success iff status 200; `"HTTP {code}"` message
with measured elapsed time on any response; fixed messages with elapsed =
`timeout` on timeout and 0 on connection error or other exception. -/
def test_http_service (res : HttpResult) (timeout : ℚ) : Bool × String × ℚ :=
  match res with
  | .response status elapsed =>
      if status = 200 then (true, "HTTP " ++ toString status, elapsed)
      else (false, "HTTP " ++ toString status, elapsed)
  | .connectionError => (false, "Connection refused", 0)
  | .timeoutExc _ => (false, "Request timeout", timeout)
  | .otherExc msg => (false, msg, 0)

/-- External effects performed by `test_service_connectivity`, in order:
the `port_forward_service` spawn attempt with its arguments (line 217 via
lines 152-172), the network call with the timeout it was given, and the
`terminate`/`wait` calls of the `finally` block (lines 230-232). -/
inductive Eff where
  | portForwardStart (service : String) (local_port : Nat) (service_port : Nat)
  | httpGet (url : String) (timeout : ℚ)
  | tcpConnect (host : String) (port : Nat) (timeout : ℚ)
  | terminate
  | wait
  deriving DecidableEq, Repr

/-- Behaviour of the external world during one `test_service_connectivity`
call: whether `port_forward_service` returns a process handle (`.ok ()`) or
raises (`.error msg`), and what the network layer does if it is reached. The
`.error` side of `http`/`tcp` injects a fault that escapes the wrapped
network call uncaught, reaching the probe's own `except` clause. -/
structure ProbeEnv where
  pf : Except String Unit
  http : Except String HttpResult
  tcp : Except String SocketResult

/-- Local-port derivation of line 216: `local_port = 8000 + service.port`. -/
def local_port_of (service : ServiceTest) : Nat := 8000 + service.port

/-- `test_service_connectivity` (lines 211-232): derive the local port, start
the tunnel, run the HTTP or raw-TCP probe, convert any escaped exception into
`(False, str(e), 0)`, and in the `finally` block terminate and wait on the
tunnel process whenever one was acquired. Returns the probe outcome paired
with the trace of external effects. -/
def test_service_connectivity (env : ProbeEnv) (service : ServiceTest)
    (timeout : ℚ := 10) : (Bool × String × ℚ) × List Eff :=
  let local_port := local_port_of service
  let pfEff := Eff.portForwardStart service.name local_port service.port
  match env.pf with
  | .error e =>
      -- port_forward_service raised: port_forward_process is still None,
      -- so the finally block performs no terminate/wait.
      ((false, e, 0), [pfEff])
  | .ok () =>
      if service.service_type == "http" then
        let url := "http://localhost:" ++ toString local_port ++ service.test_endpoint
        match env.http with
        | .ok r => (test_http_service r timeout,
                    [pfEff, .httpGet url timeout, .terminate, .wait])
        | .error e => ((false, e, 0),
                    [pfEff, .httpGet url timeout, .terminate, .wait])
      else
        match env.tcp with
        | .ok r => (test_port_connectivity r timeout,
                    [pfEff, .tcpConnect "localhost" local_port timeout, .terminate, .wait])
        | .error e => ((false, e, 0),
                    [pfEff, .tcpConnect "localhost" local_port timeout, .terminate, .wait])

/-- The timeouts of the TCP connect attempts recorded in a trace. -/
def tcpTimeouts (tr : List Eff) : List ℚ :=
  tr.filterMap (fun e => match e with
    | .tcpConnect _ _ t => some t
    | _ => none)

/-- The port-forward spawn requests recorded in a trace, as
(service name, local port, remote port) triples. -/
def pfRequests (tr : List Eff) : List (String × Nat × Nat) :=
  tr.filterMap (fun e => match e with
    | .portForwardStart n lp rp => some (n, lp, rp)
    | _ => none)

/-- The timeouts of the HTTP GET attempts recorded in a trace. -/
def httpTimeouts (tr : List Eff) : List ℚ :=
  tr.filterMap (fun e => match e with
    | .httpGet _ t => some t
    | _ => none)

/-! ### Theorems -/

/-- Claim C8: for an input whose second line has at least five fields but a
non-numeric fourth (restarts) field, the whole parse fails: `get_pod_status`
propagates the `ValueError` (no record list is returned, not even for the
well-formed first line). -/
theorem C8_nonnumeric_restarts_fatal :
    get_pod_status "podA 1/1 Running 0 5d\npodB 1/1 Running abc 5d" =
      .error () := by decide

/-- Claim C10: the per-pod health classification is partial at the public
interface: on a pod list containing a running pod whose ready field has no
"/" separator, `check_pods_health` raises an `IndexError` (modelled
`Except.error`) instead of returning a fleet-health boolean. -/
theorem C10_health_check_partial :
    check_pods_health [⟨"pod-a", "1", "Running", 0, "5d", "default"⟩] =
      .error () := by decide

/-- Claim C9: when the HTTP GET raises a timeout under the configured
10-second timeout, the outcome is `(false, "Request timeout", 10)` with the
elapsed field equal to the timeout value whatever wall time had actually
passed; and on any response, success holds iff the status code is 200. -/
theorem C9_http_timeout_outcome :
    (∀ wall : ℚ, test_http_service (.timeoutExc wall) 10 =
       (false, "Request timeout", 10)) ∧
    (∀ (status : Nat) (elapsed : ℚ),
       (test_http_service (.response status elapsed) 10).1 = true ↔
         status = 200) := by
  constructor
  · intro wall; rfl
  · intro status elapsed
    unfold test_http_service
    by_cases h : status = 200 <;> simp [h]

/-- Claim C5: for every service target (and every behaviour of the external
world), the probe requests exactly one tunnel, whose local port is derived
deterministically as 8000 plus the target's declared port. -/
theorem C5_local_port_derivation (env : ProbeEnv) (service : ServiceTest)
    (timeout : ℚ) :
    pfRequests (test_service_connectivity env service timeout).2 =
      [(service.name, 8000 + service.port, service.port)] := by
  unfold test_service_connectivity local_port_of
  cases hpf : env.pf with
  | error e => simp [pfRequests]
  | ok u =>
      cases u
      by_cases hs : service.service_type == "http" <;>
        simp [hs, pfRequests] <;>
        first
          | cases hh : env.http <;> simp [pfRequests]
          | cases ht : env.tcp <;> simp [pfRequests]

/-- Claim C1: whenever `port_forward_service` returns a process handle, the
probe's `finally` block invokes `terminate` and `wait` on it exactly once
before returning — for every service target and for every behaviour of the
wrapped network call, including an exception escaping it. -/
theorem C1_tunnel_always_released (env : ProbeEnv) (service : ServiceTest)
    (timeout : ℚ) (hpf : env.pf = .ok ()) :
    ((test_service_connectivity env service timeout).2.count .terminate = 1) ∧
    ((test_service_connectivity env service timeout).2.count .wait = 1) := by
  unfold test_service_connectivity
  rw [hpf]
  by_cases hs : service.service_type == "http" <;>
    simp only [hs, if_true, if_false, Bool.false_eq_true] <;>
    first
      | cases hh : env.http <;>
          simp [List.count_cons, List.count_nil, beq_iff_eq]
      | cases ht : env.tcp <;>
          simp [List.count_cons, List.count_nil, beq_iff_eq]

/-- Witness for C1 at a concrete input: the `cart` target with a tunnel
acquired and a fault injected into the network call. -/
theorem C1_tunnel_always_released_witness :
    ((test_service_connectivity ⟨.ok (), .error "boom", .error "boom"⟩
        ⟨"cart", 8883, "grpc", "/"⟩ 10).2.count .terminate = 1) ∧
    ((test_service_connectivity ⟨.ok (), .error "boom", .error "boom"⟩
        ⟨"cart", 8883, "grpc", "/"⟩ 10).2.count .wait = 1) :=
  C1_tunnel_always_released ⟨.ok (), .error "boom", .error "boom"⟩
    ⟨"cart", 8883, "grpc", "/"⟩ 10 rfl

/-- Claim C2 is false on the code: for the RAW_TCP target `cart`, probed with
the default arguments of `run_connectivity_tests`, the TCP connect is
attempted with a 10-second timeout, not the claimed 5-second one — the
5-second default of `test_port_connectivity` is overridden at its only call
site by the probe's own `timeout` parameter. -/
theorem C2_counterexample :
    services.get ⟨1, by decide⟩ = ⟨"cart", 8883, "grpc", "/"⟩ ∧
    tcpTimeouts (test_service_connectivity
        ⟨.ok (), .error "e", .ok (.connectEx 1 (1/2))⟩
        (services.get ⟨1, by decide⟩)).2 = [10] ∧
    (10 : ℚ) ≠ 5 := by
  refine ⟨rfl, rfl, by norm_num⟩

/-- Claim C2 amended: for every service target of kind RAW_TCP, the probe
attempts the TCP connect with the probe's own `timeout` parameter (10 at
every call site), the same value an HTTP target's GET receives — not the
5-second `test_port_connectivity` default, which is overridden and unused on
this path. -/
theorem C2_amended_tcp_timeout (timeout : ℚ) :
    (∀ (env : ProbeEnv) (service : ServiceTest),
       service.service_type ≠ "http" → env.pf = .ok () →
       tcpTimeouts (test_service_connectivity env service timeout).2 =
         [timeout]) ∧
    (∀ (env : ProbeEnv) (service : ServiceTest),
       service.service_type = "http" → env.pf = .ok () →
       httpTimeouts (test_service_connectivity env service timeout).2 =
         [timeout]) := by
  constructor
  · intro env service hs hpf
    unfold test_service_connectivity
    rw [hpf]
    have hb : (service.service_type == "http") = false := by
      simp [hs]
    simp only [hb, Bool.false_eq_true, if_false]
    cases ht : env.tcp <;> simp [tcpTimeouts]
  · intro env service hs hpf
    unfold test_service_connectivity
    rw [hpf]
    have hb : (service.service_type == "http") = true := by
      simp [hs]
    simp only [hb, if_true]
    cases hh : env.http <;> simp [httpTimeouts]

/-- Witness for the amended C2 at concrete inputs: `cart` (RAW_TCP) and
`frontend` (HTTP), both with the default 10-second probe timeout. -/
theorem C2_amended_tcp_timeout_witness :
    tcpTimeouts (test_service_connectivity
        ⟨.ok (), .error "e", .ok (.connectEx 1 (1/2))⟩
        ⟨"cart", 8883, "grpc", "/"⟩ 10).2 = [10] ∧
    httpTimeouts (test_service_connectivity
        ⟨.ok (), .ok (.response 200 (1/2)), .error "e"⟩
        ⟨"frontend", 8080, "http", "/"⟩ 10).2 = [10] :=
  ⟨(C2_amended_tcp_timeout 10).1 ⟨.ok (), .error "e", .ok (.connectEx 1 (1/2))⟩
      ⟨"cart", 8883, "grpc", "/"⟩ (by decide) rfl,
   (C2_amended_tcp_timeout 10).2 ⟨.ok (), .ok (.response 200 (1/2)), .error "e"⟩
      ⟨"frontend", 8080, "http", "/"⟩ rfl rfl⟩

/-- Claim C6 is false on the code: the static registry contains two distinct
service targets, `email` and `order`, that both declare port 8885, so the
fixed-offset derivation gives them the same local tunnel port (16885). -/
theorem C6_counterexample :
    services.get ⟨3, by decide⟩ ≠ services.get ⟨4, by decide⟩ ∧
    local_port_of (services.get ⟨3, by decide⟩) =
      local_port_of (services.get ⟨4, by decide⟩) := by
  exact ⟨by decide, rfl⟩

/-- Claim C6 amended: the fixed-offset derivation is injective — any two
service targets with distinct declared ports get distinct local tunnel
ports — but the registry itself breaks the premise: `email` and `order` both
declare port 8885 and therefore share local port 16885 (`C6_counterexample`). -/
theorem C6_amended_distinct_ports (s1 s2 : ServiceTest)
    (h : s1.port ≠ s2.port) :
    local_port_of s1 ≠ local_port_of s2 := by
  unfold local_port_of
  omega

/-- Witness for the amended C6 at concrete inputs: `frontend` and `cart`
declare distinct ports, hence distinct local ports. -/
theorem C6_amended_distinct_ports_witness :
    local_port_of ⟨"frontend", 8080, "http", "/"⟩ ≠
      local_port_of ⟨"cart", 8883, "grpc", "/"⟩ :=
  C6_amended_distinct_ports ⟨"frontend", 8080, "http", "/"⟩
    ⟨"cart", 8883, "grpc", "/"⟩ (by decide)

/-- Claim C3: a parsed pod is classified healthy iff its phase is exactly
`"Running"` and, splitting the ready field on `"/"`, the numerator equals the
denominator; any mismatch or any other phase classifies it unhealthy (the
classification returns `false`, it does not raise, whenever the split has at
least two components). -/
theorem C3_pod_health_rule (pod : PodStatus) (a b : String) (rest : List String)
    (h : pySplitChar pod.ready '/' = a :: b :: rest) :
    podHealthCheck pod = .ok (pod.status == "Running" && a == b) ∧
    (podHealthCheck pod = .ok true ↔ (pod.status = "Running" ∧ a = b)) := by
  have h1 : podHealthCheck pod = .ok (pod.status == "Running" && a == b) := by
    unfold podHealthCheck
    by_cases hs : pod.status == "Running"
    · rw [if_pos hs, h]
      simp [hs]
    · rw [if_neg hs]
      simp only [Bool.not_eq_true] at hs
      simp [hs]
  refine ⟨h1, ?_⟩
  rw [h1]
  simp [Bool.and_eq_true]

/-- Witness for C3 at a concrete input: a running pod with ready `"2/2"` is
classified healthy. -/
theorem C3_pod_health_rule_witness :
    podHealthCheck ⟨"pod-a", "2/2", "Running", 0, "5d", "default"⟩ =
      .ok true :=
  (C3_pod_health_rule ⟨"pod-a", "2/2", "Running", 0, "5d", "default"⟩
      "2" "2" [] (by decide)).2.mpr ⟨rfl, rfl⟩

/-- The per-pod health classification applied to every pod of a list in
order: the sequence of `podHealthCheck` verdicts, or the first raised error. -/
def classifyAll : List PodStatus → Except Unit (List Bool)
  | [] => .ok []
  | p :: ps => do
      let healthy ← podHealthCheck p
      let rest ← classifyAll ps
      pure (healthy :: rest)

/-- The health-aggregation loop computes the conjunction of the per-pod
classifications when none of them raises. -/
theorem health_foldlM_eq (pods : List PodStatus) (acc : Bool)
    (results : List Bool) (h : classifyAll pods = .ok results) :
    pods.foldlM (fun all_healthy pod => do
        let healthy ← podHealthCheck pod
        pure (all_healthy && healthy)) acc =
      .ok (results.foldl (· && ·) acc) := by
  induction pods generalizing acc results with
  | nil =>
      simp only [classifyAll, Except.ok.injEq] at h
      cases h
      rfl
  | cons p ps ih =>
      unfold classifyAll at h
      cases hp : podHealthCheck p with
      | error e => simp [hp, bind, Except.bind] at h
      | ok y =>
          rw [hp] at h
          cases hps : classifyAll ps with
          | error e =>
              simp [hps, bind, Except.bind, pure, Except.pure] at h
          | ok ys =>
              rw [hps] at h
              simp only [bind, Except.bind, pure, Except.pure,
                Except.ok.injEq] at h
              cases h
              rw [List.foldlM_cons, hp]
              show ps.foldlM _ (acc && y) = _
              rw [ih (acc && y) ys hps]
              simp [List.foldl_cons]

/-- Folding `&&` from the left equals the initial value conjoined with the
conjunction of the list. -/
theorem foldl_and_eq (l : List Bool) (a : Bool) :
    l.foldl (· && ·) a = (a && l.all id) := by
  induction l generalizing a with
  | nil => simp
  | cons x xs ih =>
      rw [List.foldl_cons, ih (a && x)]
      simp [Bool.and_assoc]

/-- Claim C4: when every per-pod classification succeeds, the fleet health
returned by `check_pods_health` is the logical AND of the per-pod results
over all pods, and the empty pod list yields `false` (fails closed). -/
theorem C4_fleet_health_is_and (pods : List PodStatus) (results : List Bool)
    (h : classifyAll pods = .ok results) :
    (pods = [] → check_pods_health pods = .ok false) ∧
    (pods ≠ [] → check_pods_health pods = .ok (results.all id)) := by
  constructor
  · intro he
    subst he
    rfl
  · intro hne
    unfold check_pods_health
    rw [if_neg (by simpa using hne)]
    rw [health_foldlM_eq pods true results h]
    rw [foldl_and_eq]
    simp

/-- Witness for C4 at a concrete input: one healthy and one unhealthy pod
give fleet health `false`, the AND of `[true, false]`. -/
theorem C4_fleet_health_is_and_witness :
    check_pods_health
        [⟨"pod-a", "2/2", "Running", 0, "5d", "default"⟩,
         ⟨"pod-b", "1/2", "Running", 9, "1d", "default"⟩] =
      .ok ([true, false].all id) :=
  (C4_fleet_health_is_and
      [⟨"pod-a", "2/2", "Running", 0, "5d", "default"⟩,
       ⟨"pod-b", "1/2", "Running", 9, "1d", "default"⟩]
      [true, false] (by decide)).2 (by decide)

/-- The accumulation loop of `get_pod_status`: whatever it returns is the
accumulator followed by, in input order, the records of the lines that
produced one. -/
theorem parse_foldlM_eq (ls : List String) (acc recs : List PodStatus)
    (h : ls.foldlM (fun pods line => do
        match ← parsePodLine line with
        | some pod => pure (pods ++ [pod])
        | none => pure pods) acc = .ok recs) :
    recs = acc ++ ls.filterMap (fun l => (parsePodLine l).toOption.join) := by
  induction ls generalizing acc with
  | nil =>
      simp only [List.foldlM_nil, pure, Except.pure, Except.ok.injEq] at h
      simp [h]
  | cons l ls ih =>
      rw [List.foldlM_cons] at h
      cases hl : parsePodLine l with
      | error e =>
          rw [hl] at h
          simp [bind, Except.bind] at h
      | ok o =>
          rw [hl] at h
          cases o with
          | none =>
              simp only [bind, Except.bind, pure, Except.pure] at h
              have := ih acc h
              simp [this, List.filterMap_cons, hl, Except.toOption,
                Option.join]
          | some pod =>
              simp only [bind, Except.bind, pure, Except.pure] at h
              have := ih (acc ++ [pod]) h
              simp [this, List.filterMap_cons, hl, Except.toOption,
                Option.join]

/-- Claim C7: the pod status parser yields no record for a non-empty line
with fewer than five whitespace-separated fields and does not raise on it,
and the record list it returns is the in-order `filterMap` of the per-line
results over the input lines (records preserve input line order). -/
theorem C7_parser_drops_short_lines (output : String) :
    (∀ line ∈ pySplitChar output '\n', (pySplitWs line).length < 5 →
       parsePodLine line = .ok none) ∧
    (∀ recs, get_pod_status output = .ok recs →
       recs = (pySplitChar output '\n').filterMap
         (fun l => (parsePodLine l).toOption.join)) := by
  constructor
  · intro line _ hlen
    unfold parsePodLine
    by_cases ht : stripTruthy line
    · rw [if_pos ht, if_neg (by omega)]
    · rw [if_neg ht]
  · intro recs h
    have := parse_foldlM_eq (pySplitChar output '\n') [] recs h
    simpa using this

/-- Witness for C7 at a concrete input: a single line of three fields yields
no record, and the parse of that input returns the empty record list, equal
to the per-line filterMap. -/
theorem C7_parser_drops_short_lines_witness :
    parsePodLine "a b c" = .ok none ∧
    ([] : List PodStatus) = (pySplitChar "a b c" '\n').filterMap
      (fun l => (parsePodLine l).toOption.join) :=
  ⟨(C7_parser_drops_short_lines "a b c").1 "a b c" (by decide) (by decide),
   (C7_parser_drops_short_lines "a b c").2 [] (by decide)⟩

end K8sMonitor
